import Mathlib

/-!
Verification of the llm-crypto-trader specification against the repository.

The repository ships the frontend components (Dashboard.jsx, DashboardPro.jsx,
DashboardCMC, ConfigurationPanel) and the strategy documentation; the Python
backend (trading_bot.py, api.py) is not part of the source tree, so the
Ledger, Risk Guardrail Evaluator, Decision Validator and Config store are
modelled from the specification text, while the dashboard computations are
translated directly from the JSX sources.

All monetary arithmetic is carried out over the rationals.
-/

unseal Rat.mul Rat.add Rat.sub Rat.inv

namespace LlmCryptoTrader

/-- Side of a position: long or short. -/
inductive Side where
  | long
  | short
deriving Repr, DecidableEq, BEq

/-- Modelled from the spec: a Position record of the Ledger,
{symbol, side, quantity, entry_price, leverage, margin, stop_loss, take_profit}
(opened_at is omitted: no clock is modelled). -/
structure Position where
  symbol : String
  side : Side
  quantity : ℚ
  entry_price : ℚ
  leverage : ℚ
  margin : ℚ
  stop_loss : ℚ
  take_profit : ℚ
deriving Repr, DecidableEq

/-- Modelled from the spec: an immutable TradeRecord audit entry
{symbol, side, action, quantity, price, fee, pnl (close only), reason}. -/
structure TradeRecord where
  symbol : String
  side : Side
  action : String
  quantity : ℚ
  price : ℚ
  fee : ℚ
  pnl : Option ℚ
  reason : String
deriving Repr, DecidableEq

/-- Modelled from the spec: the Ledger state
{cash_balance, positions, realized_pnl_total} together with the append-only
trade log. -/
structure Ledger where
  cash_balance : ℚ
  positions : List Position
  realized_pnl_total : ℚ
  trades : List TradeRecord
deriving Repr, DecidableEq

/-- Modelled from the spec: error taxonomy of the Ledger and the
Decision Validator. -/
inductive TradeError where
  | insufficientMargin
  | positionLimitExceeded
  | duplicatePosition
  | positionNotFound
  | invalidDecision
deriving Repr, DecidableEq

/-- The fixed taker-average fee rate 0.000275 used by the backend and
recomputed by the transaction dashboard (0.0275 percent). -/
def feeRate : ℚ := 275 / 1000000

/-- Modelled from the spec: unrealizedPnL(position, current_price),
long = (current - entry) * qty; short = (entry - current) * qty. -/
def unrealizedPnL (pos : Position) (current_price : ℚ) : ℚ :=
  match pos.side with
  | .long => (current_price - pos.entry_price) * pos.quantity
  | .short => (pos.entry_price - current_price) * pos.quantity

/-- Modelled from the spec: equity(current_prices) = cash_balance plus the
sum of unrealizedPnL over all open positions valued at current_prices.
Prices are given as a total map, so every open position is covered. -/
def equity (l : Ledger) (current_prices : String → ℚ) : ℚ :=
  l.cash_balance + (l.positions.map (fun p => unrealizedPnL p (current_prices p.symbol))).sum

/-- Modelled from the spec: sizeQuantity(equity, risk_pct, entry_price,
stop_loss_pct): risk_amount = equity * (risk_pct/100);
quantity = risk_amount / (entry_price * stop_loss_pct / 100). -/
def sizeQuantity (eq_total risk_pct entry_price stop_loss_pct : ℚ) : ℚ :=
  (eq_total * (risk_pct / 100)) / (entry_price * stop_loss_pct / 100)

/-- Modelled from the spec: the required margin,
(quantity * entry_price) / leverage. -/
def openMargin (quantity entry_price leverage : ℚ) : ℚ :=
  (quantity * entry_price) / leverage

/-- Modelled from the spec: the entry fee, quantity * entry_price * 0.000275. -/
def openFee (quantity entry_price : ℚ) : ℚ :=
  quantity * entry_price * feeRate

/-- Modelled from the spec: the closing fee, the same 0.000275 rate on the
exit notional. -/
def closeFee (quantity exit_price : ℚ) : ℚ :=
  quantity * exit_price * feeRate

/-- Modelled from the spec: openPosition computes
margin = (quantity * entry_price)/leverage and
fee = quantity * entry_price * 0.000275, debits cash_balance by margin+fee,
failing with InsufficientMarginError if cash_balance would go negative,
with PositionLimitExceededError if the open position count is at
max_positions, and with DuplicatePositionError if (symbol, side) is already
open; on success it appends an open TradeRecord and inserts the Position. -/
def openPosition (max_positions : Nat) (l : Ledger) (symbol : String) (side : Side)
    (quantity entry_price leverage stop_loss take_profit : ℚ) :
    Except TradeError Ledger :=
  if l.cash_balance - (openMargin quantity entry_price leverage + openFee quantity entry_price) < 0 then
    .error .insufficientMargin
  else if max_positions ≤ l.positions.length then
    .error .positionLimitExceeded
  else if l.positions.any (fun p => p.symbol == symbol && p.side == side) then
    .error .duplicatePosition
  else
    .ok { cash_balance :=
            l.cash_balance - (openMargin quantity entry_price leverage + openFee quantity entry_price)
          positions := l.positions ++
            [{ symbol := symbol, side := side, quantity := quantity,
               entry_price := entry_price, leverage := leverage,
               margin := openMargin quantity entry_price leverage,
               stop_loss := stop_loss, take_profit := take_profit }]
          realized_pnl_total := l.realized_pnl_total
          trades := l.trades ++
            [{ symbol := symbol, side := side, action := "open", quantity := quantity,
               price := entry_price, fee := openFee quantity entry_price, pnl := none,
               reason := "entry" }] }

/-- Modelled from the spec: closePosition computes realized
pnl = unrealizedPnL at exit_price minus a closing fee (same 0.000275 rate on
the exit notional), credits cash_balance by margin + realized pnl, removes
the Position and appends a close TradeRecord; fails with
PositionNotFoundError if no matching position exists. -/
def closePosition (l : Ledger) (symbol : String) (side : Side)
    (exit_price : ℚ) (reason : String) : Except TradeError Ledger :=
  match l.positions.find? (fun p => p.symbol == symbol && p.side == side) with
  | none => .error .positionNotFound
  | some pos =>
    .ok { cash_balance :=
            l.cash_balance + pos.margin +
              (unrealizedPnL pos exit_price - closeFee pos.quantity exit_price)
          positions := l.positions.filter (fun p => !(p.symbol == symbol && p.side == side))
          realized_pnl_total :=
            l.realized_pnl_total + (unrealizedPnL pos exit_price - closeFee pos.quantity exit_price)
          trades := l.trades ++
            [{ symbol := symbol, side := side, action := "close", quantity := pos.quantity,
               price := exit_price, fee := closeFee pos.quantity exit_price,
               pnl := some (unrealizedPnL pos exit_price - closeFee pos.quantity exit_price),
               reason := reason }] }

/-- A Ledger mutation requested of the state machine: an openPosition or a
closePosition call. -/
inductive LedgerOp where
  | openOp (symbol : String) (side : Side) (quantity entry_price leverage stop_loss take_profit : ℚ)
  | closeOp (symbol : String) (side : Side) (exit_price : ℚ) (reason : String)
deriving Repr, DecidableEq

/-- Applying one operation: a rejected operation leaves the Ledger
unchanged. -/
def applyOp (max_positions : Nat) (l : Ledger) (op : LedgerOp) : Ledger :=
  match op with
  | .openOp symbol side q e lev sl tp =>
    match openPosition max_positions l symbol side q e lev sl tp with
    | .ok l2 => l2
    | .error _ => l
  | .closeOp symbol side exit_price reason =>
    match closePosition l symbol side exit_price reason with
    | .ok l2 => l2
    | .error _ => l

/-- Running a sequence of operations from a given Ledger state. -/
def runOps (max_positions : Nat) (l : Ledger) (ops : List LedgerOp) : Ledger :=
  ops.foldl (applyOp max_positions) l

/-- Modelled from the spec: the initial Ledger state holds the initial
balance, no positions, no realized pnl and an empty trade log. -/
def initLedger (initial_balance : ℚ) : Ledger :=
  { cash_balance := initial_balance, positions := [], realized_pnl_total := 0, trades := [] }

/-- Modelled from the spec: the risk-guardrail trigger condition. A long
position triggers a close when current_price is at or below stop_loss or at
or above take_profit; a short position when current_price is at or above
stop_loss or at or below take_profit (all bounds inclusive). -/
def triggersGuardrail (pos : Position) (current_price : ℚ) : Bool :=
  match pos.side with
  | .long => decide (current_price ≤ pos.stop_loss) || decide (pos.take_profit ≤ current_price)
  | .short => decide (pos.stop_loss ≤ current_price) || decide (current_price ≤ pos.take_profit)

/-- Modelled from the spec: the reason recorded for a guardrail close,
stop_loss when the stop side of the band triggered, otherwise
take_profit. -/
def guardReason (pos : Position) (current_price : ℚ) : String :=
  match pos.side with
  | .long => if current_price ≤ pos.stop_loss then "stop_loss" else "take_profit"
  | .short => if pos.stop_loss ≤ current_price then "stop_loss" else "take_profit"

/-- Result of one guardrail sweep over the open positions: the positions
that remain open, the closed (symbol, side, reason) triples in evaluation
order, and the cash and realized-pnl deltas of the closes. -/
structure SweepResult where
  remaining : List Position
  closed : List (String × Side × String)
  cashDelta : ℚ
  realizedDelta : ℚ
deriving Repr, DecidableEq

/-- Modelled from the spec: the Risk Guardrail Evaluator iterates the open
positions in stable insertion order and closes each triggered position
immediately at its symbol's current price (fee at the 0.000275 rate on the
exit notional), crediting margin + realized pnl. -/
def riskSweep (current_prices : String → ℚ) : List Position → SweepResult
  | [] => { remaining := [], closed := [], cashDelta := 0, realizedDelta := 0 }
  | pos :: rest =>
    let r := riskSweep current_prices rest
    let p := current_prices pos.symbol
    if triggersGuardrail pos p then
      let pnl := unrealizedPnL pos p - closeFee pos.quantity p
      { remaining := r.remaining
        closed := (pos.symbol, pos.side, guardReason pos p) :: r.closed
        cashDelta := pos.margin + pnl + r.cashDelta
        realizedDelta := pnl + r.realizedDelta }
    else
      { remaining := pos :: r.remaining
        closed := r.closed
        cashDelta := r.cashDelta
        realizedDelta := r.realizedDelta }

/-- Modelled from the spec: evaluate(ledger, current_prices) applies the
guardrail sweep to the Ledger and returns the list of closed
(symbol, side, reason) triples. -/
def evaluateGuardrails (l : Ledger) (current_prices : String → ℚ) :
    Ledger × List (String × Side × String) :=
  let r := riskSweep current_prices l.positions
  ({ cash_balance := l.cash_balance + r.cashDelta
     positions := r.remaining
     realized_pnl_total := l.realized_pnl_total + r.realizedDelta
     trades := l.trades }, r.closed)

/-- Modelled from the spec: the states of the Cycle Orchestrator. -/
inductive CycleStep where
  | FETCH
  | INDICATORS
  | RISK_CHECK
  | DECIDE
  | EXECUTE
  | PERSIST
  | SLEEP
deriving Repr, DecidableEq, BEq

/-- Modelled from the spec: the strictly sequential order of states within
one cycle of the Orchestrator. -/
def cycleSteps : List CycleStep :=
  [.FETCH, .INDICATORS, .RISK_CHECK, .DECIDE, .EXECUTE, .PERSIST, .SLEEP]

/-- Modelled from the spec: the positions handed to the external decision
service at the DECIDE step are the Ledger's open positions after the
RISK_CHECK step has run against the fetched prices. -/
def decideRequestPositions (l : Ledger) (current_prices : String → ℚ) : List Position :=
  (evaluateGuardrails l current_prices).1.positions

/-- Modelled from the spec: one entry of the loosely-typed external decision
document, before validation: a tag string and optional proposed fields. -/
structure RawDecision where
  symbol : String
  dtag : String
  side : Option Side
  quantity : Option ℚ
  stop_loss : Option ℚ
  take_profit : Option ℚ
  leverage : Option ℚ
deriving Repr, DecidableEq

/-- Modelled from the spec: an immutable DecisionRecord audit entry, logged
for every decision, including rejected ones. -/
structure DecisionRecord where
  symbol : String
  decision_type : String
  accepted : Bool
  rejection_reason : Option String
deriving Repr, DecidableEq

/-- Name of each error of the taxonomy, as recorded in a rejection. -/
def errName : TradeError → String
  | .insufficientMargin => "InsufficientMarginError"
  | .positionLimitExceeded => "PositionLimitExceededError"
  | .duplicatePosition => "DuplicatePositionError"
  | .positionNotFound => "PositionNotFoundError"
  | .invalidDecision => "InvalidDecisionError"

/-- An accepted DecisionRecord for a decision entry. -/
def acceptRecord (d : RawDecision) : DecisionRecord :=
  { symbol := d.symbol, decision_type := d.dtag, accepted := true, rejection_reason := none }

/-- A rejected DecisionRecord carrying the rejection reason. -/
def rejectRecord (d : RawDecision) (e : TradeError) : DecisionRecord :=
  { symbol := d.symbol, decision_type := d.dtag, accepted := false,
    rejection_reason := some (errName e) }

/-- Modelled from the spec: stop_loss/take_profit must be consistent with
the side direction, long: stop_loss < entry_price < take_profit, short the
inverse. -/
def slTpConsistent (side : Side) (stop_loss entry_price take_profit : ℚ) : Bool :=
  match side with
  | .long => decide (stop_loss < entry_price) && decide (entry_price < take_profit)
  | .short => decide (take_profit < entry_price) && decide (entry_price < stop_loss)

/-- Modelled from the spec: the quantity an entry decision trades, the
explicit quantity when supplied, otherwise derived by the risk-based sizing
formula at the current price. -/
def entryQty (risk_pct stop_loss_pct price eq_total : ℚ) (d : RawDecision) : ℚ :=
  match d.quantity with
  | some q => q
  | none => sizeQuantity eq_total risk_pct price stop_loss_pct

/-- Modelled from the spec: the leverage an entry decision uses, defaulting
to 1. -/
def entryLev (d : RawDecision) : ℚ :=
  d.leverage.getD 1

/-- Modelled from the spec: the Decision Validator and Executor processes
one decision-document entry at the symbol's current price. Validation
short-circuits on the first failure; an entry with no explicit quantity is
sized by the risk formula; a validated entry or close delegates to the
Ledger, surfacing its failures unchanged; hold never mutates. Exactly one
DecisionRecord is produced, and a rejected decision returns the Ledger
unchanged. -/
def processDecision (max_positions : Nat) (max_leverage risk_pct stop_loss_pct : ℚ)
    (l : Ledger) (price eq_total : ℚ) (d : RawDecision) : Ledger × DecisionRecord :=
  if d.dtag = "entry" then
    match d.side with
    | none => (l, rejectRecord d .invalidDecision)
    | some sd =>
      if entryQty risk_pct stop_loss_pct price eq_total d ≤ 0 then
        (l, rejectRecord d .invalidDecision)
      else if !(decide (1 ≤ entryLev d) && decide (entryLev d ≤ max_leverage)) then
        (l, rejectRecord d .invalidDecision)
      else
        match d.stop_loss, d.take_profit with
        | some sl, some tp =>
          if slTpConsistent sd sl price tp then
            match openPosition max_positions l d.symbol sd
                (entryQty risk_pct stop_loss_pct price eq_total d) price (entryLev d) sl tp with
            | .ok l2 => (l2, acceptRecord d)
            | .error e => (l, rejectRecord d e)
          else (l, rejectRecord d .invalidDecision)
        | _, _ => (l, rejectRecord d .invalidDecision)
  else if d.dtag = "close" then
    match d.side with
    | none => (l, rejectRecord d .invalidDecision)
    | some sd =>
      match closePosition l d.symbol sd price "ai_decision" with
      | .ok l2 => (l2, acceptRecord d)
      | .error e => (l, rejectRecord d e)
  else if d.dtag = "hold" then (l, acceptRecord d)
  else (l, rejectRecord d .invalidDecision)

/-- Modelled from the spec: processing a whole decision document, one entry
per symbol, each with its current price and the equity used for sizing;
every entry yields exactly one DecisionRecord, in order. -/
def processDecisions (max_positions : Nat) (max_leverage risk_pct stop_loss_pct : ℚ)
    (l : Ledger) : List (RawDecision × ℚ × ℚ) → Ledger × List DecisionRecord
  | [] => (l, [])
  | (d, price, eq_total) :: rest =>
    let step := processDecision max_positions max_leverage risk_pct stop_loss_pct l price eq_total d
    let restRun := processDecisions max_positions max_leverage risk_pct stop_loss_pct step.1 rest
    (restRun.1, step.2 :: restRun.2)

/-- Modelled from the spec: the Config fields of one version (updated_at is
omitted: no clock is modelled; version is carried by the store). -/
structure BotConfig where
  symbols : List String
  interval : String
  check_interval : Nat
  initial_balance : ℚ
  stop_loss_pct : ℚ
  take_profit_pct : ℚ
  max_positions : Nat
  risk_per_trade_pct : ℚ
  max_leverage : ℚ
  system_prompt : String
deriving Repr, DecidableEq

/-- Modelled from the spec: the config-store state, a monotonically
increasing version counter and the version history, newest first, capped at
50 entries. -/
structure ConfigStore where
  counter : Nat
  versions : List (Nat × BotConfig)
deriving Repr, DecidableEq

/-- Modelled from the spec: save(fields) creates a new version with the next
integer version number; the history keeps at most 50 versions, evicting the
oldest first. -/
def saveConfig (st : ConfigStore) (f : BotConfig) : ConfigStore :=
  { counter := st.counter + 1
    versions := ((st.counter + 1, f) :: st.versions).take 50 }

/-- Modelled from the spec: restore(version) looks the snapshot up in the
history and creates a new version entry carrying that snapshot's field
values, rather than rewinding the version counter. -/
def restoreConfig (st : ConfigStore) (v : Nat) : Option ConfigStore :=
  match st.versions.find? (fun e => e.1 == v) with
  | none => none
  | some e => some (saveConfig st e.2)

/-- The empty config store, before the first save. -/
def emptyStore : ConfigStore := { counter := 0, versions := [] }

/-- A fixed Config-fields value used to exercise the store. -/
def cfgFix : BotConfig :=
  { symbols := ["BTCUSDT", "ETHUSDT", "BNBUSDT"], interval := "3m", check_interval := 180,
    initial_balance := 10000, stop_loss_pct := 5, take_profit_pct := 5, max_positions := 3,
    risk_per_trade_pct := 2, max_leverage := 10, system_prompt := "" }

/-- The store after n successive saves of cfgFix starting from the empty
store. -/
def saveIter : Nat → ConfigStore
  | 0 => emptyStore
  | n + 1 => saveConfig (saveIter n) cfgFix

/-- A fetched trade row as the Dashboard component sees it: the action tag
(open or close) and the identity of the position the row belongs to. The
other fields of trade_history rows play no part in the Active Trades
metric. -/
structure DashTrade where
  action : String
  pid : Nat
deriving Repr, DecidableEq

/-- From Dashboard.jsx fetchData: api.getTrades(100) returns at most the 100
most recent rows of the trade history. -/
def fetchedTrades (history : List DashTrade) : List DashTrade :=
  history.drop (history.length - 100)

/-- From Dashboard.jsx, the Active Trades metric:
trades.filter(t => t.action === 'open').length over the fetched list. -/
def activeTradesMetric (trades : List DashTrade) : Nat :=
  (trades.filter (fun t => t.action == "open")).length

/-- The number of currently open positions determined by a trade history: the
rows that open a position for which the history holds no matching close. -/
def openPositionsOf (history : List DashTrade) : Nat :=
  (history.filter (fun t =>
    t.action == "open" &&
      !(history.any (fun u => u.action == "close" && u.pid == t.pid)))).length

/-- Whether the fetched window holds an open row together with a close row of
the same position: an opened position that was closed within the window. -/
def closedWithinWindow (trades : List DashTrade) : Bool :=
  trades.any (fun t =>
    t.action == "open" && trades.any (fun u => u.action == "close" && u.pid == t.pid))

/-- A trade history of 150 rows: 50 positions opened and left open, followed
by 50 positions each opened and immediately closed. -/
def cexHistory : List DashTrade :=
  ((List.range 50).map (fun i => { action := "open", pid := i + 1 })) ++
    ((List.range 50).flatMap (fun i =>
      [{ action := "open", pid := 101 + i }, { action := "close", pid := 101 + i }]))

/-- From DashboardPro.jsx, fallback positions rendering: the displayed
current price, parseFloat(pos.current_price || pos.entry_price); a missing
or zero current_price field falls back to the entry price. -/
def renderedCurrentPrice (current_price : Option ℚ) (entry_price : ℚ) : ℚ :=
  match current_price with
  | none => entry_price
  | some c => if c = 0 then entry_price else c

/-- From DashboardPro.jsx, fallback positions rendering: the PnL percentage,
long: ((currentPrice - entryPrice) / entryPrice) * 100,
short: ((entryPrice - currentPrice) / entryPrice) * 100. -/
def pnlPctFallback (side : Side) (entryPrice currentPrice : ℚ) : ℚ :=
  match side with
  | .long => ((currentPrice - entryPrice) / entryPrice) * 100
  | .short => ((entryPrice - currentPrice) / entryPrice) * 100

/-- From the DashboardCMC transaction tab: the recomputed fee of a trade
row, total * 0.000275 with total = quantity * price. -/
def cmcRowFee (quantity price : ℚ) : ℚ :=
  (quantity * price) * (275 / 1000000)

/-- A concrete operation sequence: a 10x-leveraged long is opened with
sufficient margin and then closed at a deeply adverse exit price. -/
def cexOps : List LedgerOp :=
  [.openOp "BTC" .long 10 100 10 95 105, .closeOp "BTC" .long 1 "stop_loss"]

/-- A concrete long position: entry 100, stop_loss 95, take_profit 105. -/
def posLong95 : Position :=
  { symbol := "BTC", side := .long, quantity := 1, entry_price := 100, leverage := 1,
    margin := 100, stop_loss := 95, take_profit := 105 }

/-- A concrete Ledger holding three open positions and ample cash. -/
def ledger3 : Ledger :=
  { cash_balance := 10000
    positions :=
      [posLong95,
       { symbol := "ETH", side := .long, quantity := 1, entry_price := 100, leverage := 1,
         margin := 100, stop_loss := 95, take_profit := 105 },
       { symbol := "BNB", side := .long, quantity := 1, entry_price := 100, leverage := 1,
         margin := 100, stop_loss := 95, take_profit := 105 }]
    realized_pnl_total := 0
    trades := [] }

/-- A concrete well-formed 4th entry decision for a fresh symbol. -/
def dEntry4 : RawDecision :=
  { symbol := "SOL", dtag := "entry", side := some .long, quantity := some 1,
    stop_loss := some 95, take_profit := some 105, leverage := some 1 }

/-- The Ledger produced by a concrete successful openPosition call. -/
def openedLedger : Ledger :=
  match openPosition 3 (initLedger 1000) "BTC" Side.long 1 100 1 95 105 with
  | .ok l => l
  | .error _ => initLedger 0

/-- A concrete Ledger holding one open position that no guardrail triggers
at price 100. -/
def ledger1 : Ledger :=
  { cash_balance := 1000, positions := [posLong95], realized_pnl_total := 0, trades := [] }

/-- A two-row trade history: one position opened and then closed. -/
def smallHistory : List DashTrade :=
  [{ action := "open", pid := 1 }, { action := "close", pid := 1 }]

/-- The Ledger produced by a concrete successful closePosition call. -/
def closedLedger : Ledger :=
  match closePosition ledger1 "BTC" Side.long 90 "stop_loss" with
  | .ok l => l
  | .error _ => initLedger 0

/-- The guardrail sweep keeps exactly the positions it does not trigger,
in their original order. -/
theorem riskSweep_remaining (current_prices : String → ℚ) (ps : List Position) :
    (riskSweep current_prices ps).remaining =
      ps.filter (fun p => !triggersGuardrail p (current_prices p.symbol)) := by
  induction ps with
  | nil => rfl
  | cons pos rest ih =>
    by_cases h : triggersGuardrail pos (current_prices pos.symbol) = true
    · simp [riskSweep, h, List.filter, ih]
    · simp only [Bool.not_eq_true] at h
      simp [riskSweep, h, List.filter, ih]

/-- The guardrail sweep closes exactly the positions it triggers, in their
original order, recording symbol, side and reason. -/
theorem riskSweep_closed (current_prices : String → ℚ) (ps : List Position) :
    (riskSweep current_prices ps).closed =
      (ps.filter (fun p => triggersGuardrail p (current_prices p.symbol))).map
        (fun p => (p.symbol, p.side, guardReason p (current_prices p.symbol))) := by
  induction ps with
  | nil => rfl
  | cons pos rest ih =>
    by_cases h : triggersGuardrail pos (current_prices pos.symbol) = true
    · simp [riskSweep, h, List.filter, ih]
    · simp only [Bool.not_eq_true] at h
      simp [riskSweep, h, List.filter, ih]

/-- C1 counterexample: the state reached from the initial Ledger with
balance 500 by successfully opening a 10x-leveraged long (10 units at entry
100) and then closing it at exit price 1 has cash_balance
-490.27775 < 0: the non-negativity half of the claimed invariant fails on a
reachable state, because closePosition credits margin + realized pnl with
no lower bound. -/
theorem ledger_cash_goes_negative_cex :
    (runOps 3 (initLedger 500) cexOps).cash_balance = -(49027775 / 100000 : ℚ) ∧
    (runOps 3 (initLedger 500) cexOps).cash_balance < 0 := by
  constructor <;> decide

/-- C1 (amended): for every Ledger state and covering price map the equity
equals cash_balance plus the sum of unrealizedPnL over the open positions,
and openPosition preserves non-negative cash: an entry that would make
cash_balance negative is rejected with InsufficientMarginError, so a
successful open always leaves cash_balance non-negative. (closePosition,
however, can drive cash_balance negative, per the counterexample.) -/
theorem ledger_equity_identity_and_entry_nonneg :
    (∀ (l : Ledger) (current_prices : String → ℚ),
      equity l current_prices =
        l.cash_balance +
          (l.positions.map (fun p => unrealizedPnL p (current_prices p.symbol))).sum) ∧
    (∀ (max_positions : Nat) (l : Ledger) (symbol : String) (side : Side)
        (q e lev sl tp : ℚ) (l2 : Ledger),
      openPosition max_positions l symbol side q e lev sl tp = .ok l2 →
      0 ≤ l2.cash_balance) := by
  refine ⟨fun l current_prices => rfl, ?_⟩
  intro mp l symbol side q e lev sl tp l2 h
  unfold openPosition at h
  split_ifs at h with h1 h2 h3
  cases h
  simpa using le_of_not_lt h1

/-- C1 witness: the amended theorem applied at a concrete Ledger and at a
concrete successful openPosition call. -/
theorem ledger_equity_identity_and_entry_nonneg_witness :
    (equity ledger1 (fun _ => 100) =
      ledger1.cash_balance +
        (ledger1.positions.map (fun p => unrealizedPnL p 100)).sum) ∧
    0 ≤ openedLedger.cash_balance := by
  refine ⟨ledger_equity_identity_and_entry_nonneg.1 ledger1 (fun _ => 100), ?_⟩
  exact ledger_equity_identity_and_entry_nonneg.2 3 (initLedger 1000) "BTC" Side.long
    1 100 1 95 105 openedLedger rfl

/-- C2: the guardrail sweep closes exactly the positions whose current price
meets the inclusive stop-loss/take-profit trigger: long closes when
current_price is at most stop_loss or at least take_profit, short when
current_price is at least stop_loss or at most take_profit; with entry 100
and stop_loss 95 a long closes at 95.00 and not at 95.01. -/
theorem guardrail_trigger_spec :
    (∀ (current_prices : String → ℚ) (ps : List Position),
      (riskSweep current_prices ps).closed =
        (ps.filter (fun p => triggersGuardrail p (current_prices p.symbol))).map
          (fun p => (p.symbol, p.side, guardReason p (current_prices p.symbol))) ∧
      (riskSweep current_prices ps).remaining =
        ps.filter (fun p => !triggersGuardrail p (current_prices p.symbol))) ∧
    (∀ (pos : Position) (p : ℚ),
      triggersGuardrail pos p = true ↔
        ((pos.side = Side.long ∧ (p ≤ pos.stop_loss ∨ pos.take_profit ≤ p)) ∨
         (pos.side = Side.short ∧ (pos.stop_loss ≤ p ∨ p ≤ pos.take_profit)))) ∧
    triggersGuardrail posLong95 95 = true ∧
    triggersGuardrail posLong95 (9501 / 100) = false := by
  refine ⟨fun cp ps => ⟨riskSweep_closed cp ps, riskSweep_remaining cp ps⟩, ?_, by decide, by decide⟩
  intro pos p
  obtain ⟨symbol, side, q, e, lev, m, sl, tp⟩ := pos
  cases side <;> simp [triggersGuardrail]

/-- C3: the risk-based sizing formula equals
(equity * risk_pct / 100) / (entry_price * stop_loss_pct / 100); in
particular sizeQuantity 10000 2 100 5 = 40. -/
theorem sizing_formula_spec :
    (∀ e r p s : ℚ, 0 < e → 0 < r → 0 < p → 0 < s →
      sizeQuantity e r p s = (e * r / 100) / (p * s / 100)) ∧
    sizeQuantity 10000 2 100 5 = 40 := by
  refine ⟨?_, by decide⟩
  intro e r p s _ _ _ _
  rw [sizeQuantity]
  ring

/-- C3 witness: the sizing formula instantiated at the documented fixture
equity 10000, risk 2, entry 100, stop-loss 5 percent. -/
theorem sizing_formula_spec_witness :
    sizeQuantity 10000 2 100 5 = (10000 * 2 / 100) / (100 * 5 / 100) :=
  sizing_formula_spec.1 10000 2 100 5 (by norm_num) (by norm_num) (by norm_num) (by norm_num)

/-- C4: the fee of every trade is notional times the fixed rate 0.000275: a
successful openPosition debits cash_balance by margin plus
quantity * entry_price * 0.000275, a successful closePosition realizes
unrealizedPnL at the exit price minus quantity * exit_price * 0.000275, and
the transaction dashboard recomputes quantity * price * 0.000275 as the fee
of every trade row. -/
theorem fee_rate_spec :
    feeRate = 275 / 1000000 ∧
    (∀ (mp : Nat) (l : Ledger) (symbol : String) (side : Side)
        (q e lev sl tp : ℚ) (l2 : Ledger),
      openPosition mp l symbol side q e lev sl tp = .ok l2 →
      l2.cash_balance = l.cash_balance - (openMargin q e lev + q * e * (275 / 1000000))) ∧
    (∀ (l : Ledger) (symbol : String) (side : Side) (exit_price : ℚ) (reason : String)
        (pos : Position) (l2 : Ledger),
      l.positions.find? (fun p => p.symbol == symbol && p.side == side) = some pos →
      closePosition l symbol side exit_price reason = .ok l2 →
      l2.cash_balance = l.cash_balance + pos.margin +
          (unrealizedPnL pos exit_price - pos.quantity * exit_price * (275 / 1000000)) ∧
        l2.realized_pnl_total = l.realized_pnl_total +
          (unrealizedPnL pos exit_price - pos.quantity * exit_price * (275 / 1000000))) ∧
    (∀ q p : ℚ, cmcRowFee q p = q * p * (275 / 1000000)) := by
  refine ⟨rfl, ?_, ?_, fun q p => rfl⟩
  · intro mp l symbol side q e lev sl tp l2 h
    unfold openPosition at h
    split_ifs at h with h1 h2 h3
    cases h
    simp [openFee, feeRate]
  · intro l symbol side exit_price reason pos l2 hfind h
    unfold closePosition at h
    rw [hfind] at h
    cases h
    exact ⟨by simp [closeFee, feeRate], by simp [closeFee, feeRate]⟩

/-- C4 witness: the fee equations instantiated at a concrete successful open
(1 unit at entry 100, leverage 1, from balance 1000) and a concrete
successful close of that position at exit 90. -/
theorem fee_rate_spec_witness :
    openedLedger.cash_balance =
      (initLedger 1000).cash_balance - (openMargin 1 100 1 + 1 * 100 * (275 / 1000000)) ∧
    closedLedger.cash_balance = ledger1.cash_balance + posLong95.margin +
      (unrealizedPnL posLong95 90 - posLong95.quantity * 90 * (275 / 1000000)) := by
  refine ⟨fee_rate_spec.2.1 3 (initLedger 1000) "BTC" Side.long 1 100 1 95 105 openedLedger rfl, ?_⟩
  exact (fee_rate_spec.2.2.1 ledger1 "BTC" Side.long 90 "stop_loss" posLong95 closedLedger
    rfl rfl).1

/-- C5: within every cycle the RISK_CHECK state strictly precedes the DECIDE
state, and every position in the request handed to the decision service has
already survived the guardrail sweep at the fetched prices, so the decision
service never observes a position the guardrail closed in that cycle. -/
theorem risk_check_before_decide_spec :
    cycleSteps.indexOf CycleStep.RISK_CHECK < cycleSteps.indexOf CycleStep.DECIDE ∧
    (∀ (l : Ledger) (current_prices : String → ℚ) (pos : Position),
      pos ∈ decideRequestPositions l current_prices →
      triggersGuardrail pos (current_prices pos.symbol) = false) := by
  refine ⟨by decide, ?_⟩
  intro l current_prices pos h
  simp only [decideRequestPositions, evaluateGuardrails] at h
  rw [riskSweep_remaining] at h
  have h2 := (List.mem_filter.mp h).2
  simpa using h2

/-- C5 witness: the guardrail-survival property applied to a concrete
one-position Ledger at a price inside the stop/take band. -/
theorem risk_check_before_decide_spec_witness :
    triggersGuardrail posLong95 ((fun _ => (100 : ℚ)) posLong95.symbol) = false :=
  risk_check_before_decide_spec.2 ledger1 (fun _ => 100) posLong95 (by decide)

/-- Every processed decision either leaves the Ledger unchanged or is
recorded as accepted. -/
theorem processDecision_cases (mp : Nat) (ml rp slp : ℚ) (l : Ledger)
    (price eqv : ℚ) (d : RawDecision) :
    (processDecision mp ml rp slp l price eqv d).1 = l ∨
    (processDecision mp ml rp slp l price eqv d).2.accepted = true := by
  unfold processDecision
  repeat' split
  all_goals first
    | exact Or.inl rfl
    | exact Or.inr rfl

/-- C6: every processed decision-document entry yields exactly one
DecisionRecord whether accepted or rejected, a rejected decision leaves the
Ledger unchanged, and concretely a well-formed 4th entry against a Ledger
already holding max_positions = 3 open positions is rejected with
PositionLimitExceededError with the Ledger unchanged. -/
theorem decision_audit_spec :
    (∀ (mp : Nat) (ml rp slp : ℚ) (l : Ledger) (price eqv : ℚ) (d : RawDecision),
      (processDecision mp ml rp slp l price eqv d).2.accepted = false →
      (processDecision mp ml rp slp l price eqv d).1 = l) ∧
    (∀ (mp : Nat) (ml rp slp : ℚ) (l : Ledger) (doc : List (RawDecision × ℚ × ℚ)),
      (processDecisions mp ml rp slp l doc).2.length = doc.length) ∧
    processDecision 3 10 2 5 ledger3 100 10000 dEntry4 =
      (ledger3, { symbol := "SOL", decision_type := "entry", accepted := false,
                  rejection_reason := some "PositionLimitExceededError" }) := by
  refine ⟨?_, ?_, by decide⟩
  · intro mp ml rp slp l price eqv d h
    rcases processDecision_cases mp ml rp slp l price eqv d with h1 | h1
    · exact h1
    · rw [h1] at h
      cases h
  · intro mp ml rp slp l doc
    induction doc generalizing l with
    | nil => rfl
    | cons hd rest ih =>
      obtain ⟨d, price, eqv⟩ := hd
      simp [processDecisions, ih]

/-- C6 witness: the rejected concrete 4th entry leaves the concrete Ledger
unchanged. -/
theorem decision_audit_spec_witness :
    (processDecision 3 10 2 5 ledger3 100 10000 dEntry4).1 = ledger3 :=
  decision_audit_spec.1 3 10 2 5 ledger3 100 10000 dEntry4 (by decide)

/-- C7: every save creates a new version with the next integer version
number, the history is capped at 50 with the oldest evicted first (after 51
saves exactly 50 versions remain and version 1 is gone), and restore(v)
creates a new version entry carrying the restored snapshot's field values
instead of rewinding the counter. -/
theorem config_versioning_spec :
    (∀ (st : ConfigStore) (f : BotConfig),
      (saveConfig st f).counter = st.counter + 1 ∧
      (saveConfig st f).versions.head? = some (st.counter + 1, f) ∧
      (saveConfig st f).versions.length = min 50 (st.versions.length + 1)) ∧
    ((saveIter 51).versions.length = 50 ∧
      ((saveIter 51).versions.map Prod.fst).contains 1 = false ∧
      (saveIter 51).versions.map Prod.fst = (List.range 50).map (fun i => 51 - i)) ∧
    (∀ (st : ConfigStore) (v n : Nat) (f : BotConfig) (st2 : ConfigStore),
      st.versions.find? (fun e => e.1 == v) = some (n, f) →
      restoreConfig st v = some st2 →
      st2.counter = st.counter + 1 ∧ st2.versions.head? = some (st.counter + 1, f)) ∧
    restoreConfig (saveIter 51) 2 = some (saveConfig (saveIter 51) cfgFix) := by
  refine ⟨?_, by decide, ?_, by decide⟩
  · intro st f
    refine ⟨rfl, ?_, ?_⟩
    · simp [saveConfig]
    · simp [saveConfig, List.length_take]
      omega
  · intro st v n f st2 hfind hrest
    unfold restoreConfig at hrest
    rw [hfind] at hrest
    cases hrest
    exact ⟨rfl, by simp [saveConfig]⟩

/-- C7 witness: restoring the oldest remaining version (version 2) after 51
saves yields a new version entry numbered 52 carrying the snapshot's
fields. -/
theorem config_versioning_spec_witness :
    (saveConfig (saveIter 51) cfgFix).counter = (saveIter 51).counter + 1 ∧
    (saveConfig (saveIter 51) cfgFix).versions.head? =
      some ((saveIter 51).counter + 1, cfgFix) :=
  config_versioning_spec.2.2.1 (saveIter 51) 2 2 cfgFix
    (saveConfig (saveIter 51) cfgFix) (by decide) (by decide)

/-- C8: the dashboard fallback PnL percentage equals the spec's
unrealizedPnL scaled by 100 / (entry_price * quantity), and therefore has
the same sign as unrealizedPnL, for both long and short positions with
positive entry price and quantity. -/
theorem pnl_pct_consistency_spec :
    ∀ (pos : Position) (p : ℚ), 0 < pos.entry_price → 0 < pos.quantity →
      pnlPctFallback pos.side pos.entry_price p =
        unrealizedPnL pos p * 100 / (pos.entry_price * pos.quantity) ∧
      (0 < pnlPctFallback pos.side pos.entry_price p ↔ 0 < unrealizedPnL pos p) ∧
      (pnlPctFallback pos.side pos.entry_price p = 0 ↔ unrealizedPnL pos p = 0) ∧
      (pnlPctFallback pos.side pos.entry_price p < 0 ↔ unrealizedPnL pos p < 0) := by
  intro pos p he hq
  have hk : (0 : ℚ) < 100 / (pos.entry_price * pos.quantity) := by positivity
  have hkne : (100 : ℚ) / (pos.entry_price * pos.quantity) ≠ 0 := ne_of_gt hk
  have heq : pnlPctFallback pos.side pos.entry_price p =
      unrealizedPnL pos p * 100 / (pos.entry_price * pos.quantity) := by
    obtain ⟨symbol, sd, q, e, lev, m, sl, tp⟩ := pos
    simp only [Position.entry_price, Position.quantity] at he hq
    cases sd <;>
      (simp only [pnlPctFallback, unrealizedPnL]
       field_simp
       ring)
  have hmul : pnlPctFallback pos.side pos.entry_price p =
      unrealizedPnL pos p * (100 / (pos.entry_price * pos.quantity)) := by
    rw [heq, mul_div_assoc]
  refine ⟨heq, ?_, ?_, ?_⟩
  · rw [hmul]
    exact mul_pos_iff_of_pos_right hk
  · rw [hmul]
    simp [mul_eq_zero, hkne]
  · rw [hmul]
    constructor
    · intro h
      by_contra h2
      push_neg at h2
      nlinarith
    · intro h
      exact mul_neg_of_neg_of_pos h hk

/-- C8 witness: the consistency instantiated at the concrete long position
(entry 100, quantity 1) and price 110. -/
theorem pnl_pct_consistency_spec_witness :
    pnlPctFallback posLong95.side posLong95.entry_price 110 =
      unrealizedPnL posLong95 110 * 100 / (posLong95.entry_price * posLong95.quantity) :=
  (pnl_pct_consistency_spec posLong95 110 (by decide) (by decide)).1

/-- Removing at least one witnessed element makes a filter strictly
shorter. -/
theorem length_filter_lt_of_mem_false {α : Type} (p : α → Bool) (x : α) :
    ∀ (l : List α), x ∈ l → p x = false → (l.filter p).length < l.length := by
  intro l
  induction l with
  | nil => intro hx; cases hx
  | cons a t ih =>
    intro hx hpx
    rcases List.mem_cons.mp hx with rfl | hxt
    · rw [List.filter_cons, hpx]
      simp only [List.length_cons]
      exact Nat.lt_succ_of_le (List.length_filter_le p t)
    · rw [List.filter_cons]
      cases hp : p a
      · simp only [List.length_cons]
        exact Nat.lt_succ_of_le (List.length_filter_le p t)
      · simp only [List.length_cons]
        exact Nat.succ_lt_succ (ih hxt hpx)

set_option maxRecDepth 40000 in
/-- C9 counterexample: on a 150-row trade history (50 positions opened and
left open, then 50 open/close pairs) the fetched window of the 100 most
recent rows contains an opened-and-closed position, yet the displayed
Active Trades count (50) does not strictly exceed the number of open
positions (also 50): the 50 still-open positions fall outside the fetched
window. -/
theorem active_trades_metric_cex :
    closedWithinWindow (fetchedTrades cexHistory) = true ∧
    activeTradesMetric (fetchedTrades cexHistory) = 50 ∧
    openPositionsOf cexHistory = 50 ∧
    ¬ openPositionsOf cexHistory < activeTradesMetric (fetchedTrades cexHistory) := by
  refine ⟨by decide, by decide, by decide, by decide⟩

/-- C9 (amended): the Active Trades metric equals the number of records with
action open among the fetched trade rows, and provided the whole history
fits within the 100-row fetch window, the displayed count strictly exceeds
the number of open positions whenever some opened position has since been
closed. -/
theorem active_trades_metric_spec :
    (∀ trades : List DashTrade,
      activeTradesMetric trades = (trades.filter (fun t => t.action == "open")).length) ∧
    (∀ history : List DashTrade, history.length ≤ 100 →
      ∀ t ∈ history, t.action = "open" →
        (∃ u ∈ history, u.action = "close" ∧ u.pid = t.pid) →
        openPositionsOf history < activeTradesMetric (fetchedTrades history)) := by
  refine ⟨fun trades => rfl, ?_⟩
  intro H hlen t ht htag hu
  obtain ⟨u, hu1, hu2, hu3⟩ := hu
  have hfetch : fetchedTrades H = H := by
    unfold fetchedTrades
    rw [Nat.sub_eq_zero_of_le hlen, List.drop_zero]
  rw [hfetch]
  unfold openPositionsOf activeTradesMetric
  have hsplit :
      H.filter (fun t2 => t2.action == "open" &&
          !(H.any (fun u2 => u2.action == "close" && u2.pid == t2.pid))) =
        (H.filter (fun t2 => t2.action == "open")).filter
          (fun t2 => !(H.any (fun u2 => u2.action == "close" && u2.pid == t2.pid))) := by
    rw [List.filter_filter]
    apply List.filter_congr
    intro x _
    rw [Bool.and_comm]
  rw [hsplit]
  apply length_filter_lt_of_mem_false _ t
  · exact List.mem_filter.mpr ⟨ht, by simp [htag]⟩
  · have hany : (H.any (fun u2 => u2.action == "close" && u2.pid == t.pid)) = true :=
      List.any_eq_true.mpr ⟨u, hu1, by simp [hu2, hu3]⟩
    simp [hany]

/-- C9 witness: the amended bound applied to a two-row history that opens
position 1 and closes it: 0 open positions, displayed count 1. -/
theorem active_trades_metric_spec_witness :
    openPositionsOf smallHistory < activeTradesMetric (fetchedTrades smallHistory) :=
  active_trades_metric_spec.2 smallHistory (by decide)
    { action := "open", pid := 1 } (by decide) rfl
    ⟨{ action := "close", pid := 1 }, by decide, rfl, rfl⟩

/-- C10: in the fallback positions table a missing or zero current_price
field renders the entry price as the current price and a PnL percentage of
exactly 0, for both long and short positions. -/
theorem fallback_price_zero_spec :
    ∀ (cp : Option ℚ) (e : ℚ) (sd : Side),
      cp = none ∨ cp = some 0 →
      renderedCurrentPrice cp e = e ∧
      pnlPctFallback sd e (renderedCurrentPrice cp e) = 0 := by
  intro cp e sd h
  have hr : renderedCurrentPrice cp e = e := by
    rcases h with rfl | rfl
    · rfl
    · simp [renderedCurrentPrice]
  refine ⟨hr, ?_⟩
  rw [hr]
  cases sd <;> simp [pnlPctFallback]

/-- C10 witness: a missing current_price with entry 100 on a long position
renders price 100 and PnL percentage 0. -/
theorem fallback_price_zero_spec_witness :
    renderedCurrentPrice none 100 = 100 ∧
    pnlPctFallback Side.long 100 (renderedCurrentPrice none 100) = 0 :=
  fallback_price_zero_spec none 100 Side.long (Or.inl rfl)

end LlmCryptoTrader
